import Mathlib

/-!
Verification of the allocator-bot portfolio engine against its specification.

The Python sources are shallowly embedded:
* Python `dict`s become association lists (`List (String × α)`) in insertion
  order, with `dictGet` for `d.get(k)` / `d[k]` and `setKey` for `d[k] = v`.
* Python floats are modelled as exact rationals (`ℚ`).
* `pypfopt.EfficientFrontier` is an external solver; it is modelled as an
  oracle (`Frontier`): each solver call either returns cleaned weights
  (`Except.ok`) or raises an exception carrying a message (`Except.error`),
  exactly as the `try`/`except` blocks in `optimize_portfolio` observe it.
* Python `:.3f` float formatting inside note strings is abstracted to exact
  rational printing; everything else about the note strings is kept.
-/

namespace AllocatorBot

/-- Python dictionary lookup `d.get(k)`: first entry with the given key. -/
def dictGet {α : Type} (d : List (String × α)) (k : String) : Option α :=
  match d with
  | [] => none
  | p :: rest => if p.1 = k then some p.2 else dictGet rest k

/-- Python dictionary assignment `d[k] = v`: overwrite in place if the key is
present (a `dict` holds each key once), otherwise append at the end. -/
def setKey {α : Type} (d : List (String × α)) (k : String) (v : α) : List (String × α) :=
  if k ∈ d.map Prod.fst then
    d.map (fun p => if p.1 = k then (k, v) else p)
  else d ++ [(k, v)]

theorem dictGet_nil {α : Type} (k : String) : dictGet ([] : List (String × α)) k = none := rfl

theorem dictGet_cons {α : Type} (p : String × α) (rest : List (String × α)) (k : String) :
    dictGet (p :: rest) k = if p.1 = k then some p.2 else dictGet rest k := rfl

theorem dictGet_append {α : Type} (l₁ l₂ : List (String × α)) (k : String) :
    dictGet (l₁ ++ l₂) k = (dictGet l₁ k).or (dictGet l₂ k) := by
  induction l₁ with
  | nil => simp [dictGet]
  | cons p rest ih =>
      by_cases h : p.1 = k <;> simp [dictGet, h, ih, Option.or]

theorem dictGet_eq_none_of_keys_ne {α : Type} {l : List (String × α)} {k : String}
    (h : ∀ p ∈ l, p.1 ≠ k) : dictGet l k = none := by
  induction l with
  | nil => rfl
  | cons p rest ih =>
      have hp := h p (by simp)
      simp only [dictGet, if_neg hp]
      exact ih (fun q hq => h q (by simp [hq]))

theorem dictGet_setKey_self {α : Type} (d : List (String × α)) (k : String) (v : α) :
    dictGet (setKey d k v) k = some v := by
  unfold setKey
  by_cases h : k ∈ d.map Prod.fst
  · simp only [if_pos h]
    induction d with
    | nil => simp at h
    | cons p rest ih =>
        by_cases hp : p.1 = k
        · simp [dictGet, hp]
        · have hmem : k ∈ rest.map Prod.fst := by
            rcases List.mem_map.mp h with ⟨q, hq, hqk⟩
            rcases List.mem_cons.mp hq with h1 | h2
            · exact absurd (h1 ▸ hqk) hp
            · exact List.mem_map.mpr ⟨q, h2, hqk⟩
          simp [dictGet, hp, ih hmem]
  · simp only [if_neg h]
    rw [dictGet_append]
    have hnone : dictGet d k = none := by
      refine dictGet_eq_none_of_keys_ne (fun p hp hkp => ?_)
      exact h (List.mem_map.mpr ⟨p, hp, hkp⟩)
    simp [hnone, dictGet, Option.or]

/-! ## The Risk-Model Optimizer (`allocator_bot/portfolio.py`, `optimize_portfolio`) -/

/-- Cleaned weight mapping returned by a solve: ticker ↦ weight. -/
abbrev Weights := List (String × ℚ)

/-- Abstract oracle for the `pypfopt.EfficientFrontier` solver calls made by
`optimize_portfolio`.  Each call either returns cleaned weights or raises an
exception with message `e`.  `minVolatility` bundles the cleaned weights with
the achieved minimum volatility `portfolio_performance()[1]`;
`maxIndividualReturn` is `mu.max()`. -/
structure Frontier where
  maxSharpe : ℚ → Except String Weights
  minVolatility : Except String (Weights × ℚ)
  efficientRisk : ℚ → Except String Weights
  efficientReturn : ℚ → Except String Weights
  maxIndividualReturn : ℚ

/-- The adjustment note recorded when the volatility target is raised
(`f"Target volatility adjusted from {target_volatility:.3f} to
{adjusted_volatility:.3f} (minimum possible)"`, with `:.3f` abstracted). -/
def volAdjustedNote (orig adj : ℚ) : String :=
  "Target volatility adjusted from " ++ toString orig ++ " to " ++ toString adj
    ++ " (minimum possible)"

/-- The adjustment note recorded when the return target is lowered
(`f"Target return adjusted from {target_return:.3f} to {adjusted_return:.3f}
(maximum possible)"`, with `:.3f` abstracted). -/
def returnAdjustedNote (orig adj : ℚ) : String :=
  "Target return adjusted from " ++ toString orig ++ " to " ++ toString adj
    ++ " (maximum possible)"

/-- `portfolio.py` lines 44-49: the `max_sharpe` attempt.  Returns the entries
this block adds to `results` and to `failures`. -/
def maxSharpeEntries (f : Frontier) (risk_free_rate : ℚ) :
    List (String × Weights) × List (String × String) :=
  match f.maxSharpe risk_free_rate with
  | .ok w => ([("max_sharpe", w)], [])
  | .error e => ([], [("max_sharpe", "Failed: " ++ e)])

/-- `portfolio.py` lines 51-60: the `min_volatility` attempt.  Returns the
entries added to `results` and `failures`, plus the `min_volatility` value
(`none` exactly when the solve failed). -/
def minVolatilityEntries (f : Frontier) :
    List (String × Weights) × List (String × String) × Option ℚ :=
  match f.minVolatility with
  | .ok wv => ([("min_volatility", wv.1)], [], some wv.2)
  | .error e => ([], [("min_volatility", "Failed: " ++ e)], none)

/-- `portfolio.py` lines 62-86: the `efficient_risk` block, branching on the
recorded minimum volatility and the requested target. -/
def efficientRiskEntries (f : Frontier) (target_volatility : ℚ) (min_volatility : Option ℚ) :
    List (String × Weights) × List (String × String) :=
  match min_volatility with
  | some mv =>
      if target_volatility ≤ mv then
        let adjusted_volatility := mv * (101 / 100)
        match f.efficientRisk adjusted_volatility with
        | .ok w =>
            ([("efficient_risk", w)],
             [("efficient_risk_note", volAdjustedNote target_volatility adjusted_volatility)])
        | .error e => ([], [("efficient_risk", "Failed even with adjustment: " ++ e)])
      else
        match f.efficientRisk target_volatility with
        | .ok w => ([("efficient_risk", w)], [])
        | .error e => ([], [("efficient_risk", "Failed: " ++ e)])
  | none => ([], [("efficient_risk", "Cannot validate - min volatility calculation failed")])

/-- `portfolio.py` lines 88-109: the `efficient_return` block, branching on the
maximum individual asset return. -/
def efficientReturnEntries (f : Frontier) (target_return : ℚ) :
    List (String × Weights) × List (String × String) :=
  let max_individual_return := f.maxIndividualReturn
  if max_individual_return ≤ target_return then
    let adjusted_return := max_individual_return * (99 / 100)
    match f.efficientReturn adjusted_return with
    | .ok w =>
        ([("efficient_return", w)],
         [("efficient_return_note", returnAdjustedNote target_return adjusted_return)])
    | .error e => ([], [("efficient_return", "Failed even with adjustment: " ++ e)])
  else
    match f.efficientReturn target_return with
    | .ok w => ([("efficient_return", w)], [])
    | .error e => ([], [("efficient_return", "Failed: " ++ e)])

/-- `optimize_portfolio` (`portfolio.py` lines 30-111): runs the four models in
order, accumulating the `results` and `failures` dictionaries in insertion
order.  The four blocks touch disjoint keys, so sequential dictionary insertion
coincides with concatenating each block's entries. -/
def optimize_portfolio (f : Frontier) (risk_free_rate target_return target_volatility : ℚ) :
    List (String × Weights) × List (String × String) :=
  let s := maxSharpeEntries f risk_free_rate
  let v := minVolatilityEntries f
  let r := efficientRiskEntries f target_volatility v.2.2
  let ret := efficientReturnEntries f target_return
  (s.1 ++ v.1 ++ r.1 ++ ret.1, s.2 ++ v.2.1 ++ r.2 ++ ret.2)

/-- The four model names, in the order the code attempts them. -/
def fourModels : List String :=
  ["max_sharpe", "min_volatility", "efficient_risk", "efficient_return"]

/-! ## Quantities (`portfolio.py`, `calculate_quantities`) -/

/-- Python float floor-division `x // y` (exact-rational model of the float
operation: the floor of the true quotient). -/
def pyFloorDiv (x y : ℚ) : ℚ := ⌊x / y⌋

/-- Python `int(x)` on a float: truncation toward zero. -/
def pyInt (x : ℚ) : ℤ := Int.tdiv x.num x.den

/-- `calculate_quantities` (`portfolio.py` lines 114-122):
`int((total_investment * weight) // latest_prices[ticker])` per ticker. -/
def calculate_quantities (weights : Weights) (latest_prices : String → ℚ)
    (total_investment : ℚ) : List (String × ℤ) :=
  weights.map (fun p =>
    (p.1, pyInt (pyFloorDiv (total_investment * p.2) (latest_prices p.1))))

/-! ## The Allocation Composer (`portfolio.py`, `prepare_allocation` lines 184-213) -/

/-- One row of the allocation table built by `prepare_allocation`. -/
structure AllocationRow where
  riskModel : String
  ticker : String
  weight : ℚ
  quantity : ℤ
  note : Option String
deriving DecidableEq, Repr

/-- The body of the first loop of `prepare_allocation` (`portfolio.py` lines
186-199) for one model: one row per ticker of its weight mapping, each with
note `None`.  `quantities[symbol]` is a Python dict access whose key is always
present (the dict is built from the same weight mapping); it is modelled with
a default of `0` that is never used. -/
def weightRows (mw : String × Weights) (latest_prices : String → ℚ)
    (total_investment : ℚ) : List AllocationRow :=
  mw.2.map (fun sw =>
    { riskModel := mw.1, ticker := sw.1, weight := sw.2,
      quantity :=
        (dictGet (calculate_quantities mw.2 latest_prices total_investment) sw.1).getD 0,
      note := none })

/-- The body of the second loop of `prepare_allocation` (lines 201-211) for
one `failures` entry: the sentinel row. -/
def sentinelRow (mm : String × String) : AllocationRow :=
  { riskModel := mm.1, ticker := "N/A", weight := 0, quantity := 0,
    note := some mm.2 }

/-- The row-building loops of `prepare_allocation` (`portfolio.py` lines
184-213): all per-ticker rows of the successful models, in model order, then
one sentinel row per `failures` entry. -/
def allocationRows (optimized_weights : List (String × Weights))
    (failures : List (String × String)) (latest_prices : String → ℚ)
    (total_investment : ℚ) : List AllocationRow :=
  (optimized_weights.flatMap
    (fun mw => weightRows mw latest_prices total_investment))
  ++ failures.map sentinelRow

/-! ## Date defaulting (`portfolio.py` lines 11-17 and 138-142)

Dates are modelled as integers counting days, so "today" is a parameter `now`
and `timedelta(days=365)` is a subtraction of `365`. -/

/-- `prepare_allocation` lines 138-142:
`start_date = start_date or (datetime.now() - timedelta(days=365)).strftime(...)`
and `end_date = end_date or datetime.now().strftime(...)`. -/
def prepareAllocationDates (start_date end_date : Option ℤ) (now : ℤ) : ℤ × ℤ :=
  (start_date.getD (now - 365), end_date.getD now)

/-- `fetch_historical_prices` lines 16-17: `if end_date is None: end_date =
datetime.today()...`. -/
def fetchEndDate (end_date : Option ℤ) (today : ℤ) : ℤ :=
  end_date.getD today

/-! ## The Allocation/Task Store (`allocator_bot/storage.py`)

Both backends hold JSON documents; (de)serialization is modelled as the
identity on the parsed collection, and a collection is an association list of
`allocation_id ↦ payload`. -/

/-- `LocalFileStorage` state: each file is present with parsed contents, or
absent. `α` is the payload type (row list for allocations, record for tasks). -/
structure LocalFileStorage (α : Type) where
  allocationsFile : Option (List (String × α))
  tasksFile : Option (List (String × α))

/-- `LocalFileStorage.load_allocations` (`storage.py` lines 22-27): return `{}`
when the file does not exist, else its parsed contents. -/
def LocalFileStorage.load_allocations {α : Type} (s : LocalFileStorage α) :
    List (String × α) :=
  match s.allocationsFile with
  | some d => d
  | none => []

/-- `LocalFileStorage.save_allocations` (lines 29-32): write the collection. -/
def LocalFileStorage.save_allocations {α : Type} (s : LocalFileStorage α)
    (allocations : List (String × α)) : LocalFileStorage α :=
  { s with allocationsFile := some allocations }

/-- `LocalFileStorage.load_tasks` (lines 34-39). -/
def LocalFileStorage.load_tasks {α : Type} (s : LocalFileStorage α) :
    List (String × α) :=
  match s.tasksFile with
  | some d => d
  | none => []

/-- `LocalFileStorage.save_tasks` (lines 41-44). -/
def LocalFileStorage.save_tasks {α : Type} (s : LocalFileStorage α)
    (tasks : List (String × α)) : LocalFileStorage α :=
  { s with tasksFile := some tasks }

/-- `CloudObjectStorage` state: the S3 bucket maps object keys to parsed JSON
documents; `allocation_data_file` and `task_data_file` are the configured
object keys. -/
structure CloudObjectStorage (α : Type) where
  objects : List (String × List (String × α))
  allocation_data_file : String
  task_data_file : String

/-- `s3.get_object`: returns the object body, or raises `ClientError` with
error code `"NoSuchKey"` when the key is absent from the bucket. -/
def s3GetObject {α : Type} (s : CloudObjectStorage α) (key : String) :
    Except String (List (String × α)) :=
  match dictGet s.objects key with
  | some body => .ok body
  | none => .error "NoSuchKey"

/-- `CloudObjectStorage.load_allocations` (`storage.py` lines 61-71): a
`NoSuchKey` client error yields `{}`; any other error is re-raised. -/
def CloudObjectStorage.load_allocations {α : Type} (s : CloudObjectStorage α) :
    Except String (List (String × α)) :=
  match s3GetObject s s.allocation_data_file with
  | .ok body => .ok body
  | .error e => if e = "NoSuchKey" then .ok [] else .error e

/-- `CloudObjectStorage.save_allocations` (lines 73-79): `put_object` of the
serialized collection. -/
def CloudObjectStorage.save_allocations {α : Type} (s : CloudObjectStorage α)
    (allocations : List (String × α)) : CloudObjectStorage α :=
  { s with objects := setKey s.objects s.allocation_data_file allocations }

/-- `CloudObjectStorage.load_tasks` (lines 81-89). -/
def CloudObjectStorage.load_tasks {α : Type} (s : CloudObjectStorage α) :
    Except String (List (String × α)) :=
  match s3GetObject s s.task_data_file with
  | .ok body => .ok body
  | .error e => if e = "NoSuchKey" then .ok [] else .error e

/-- `CloudObjectStorage.save_tasks` (lines 91-97). -/
def CloudObjectStorage.save_tasks {α : Type} (s : CloudObjectStorage α)
    (tasks : List (String × α)) : CloudObjectStorage α :=
  { s with objects := setKey s.objects s.task_data_file tasks }

/-- Module-level `save_allocation` (`storage.py` lines 117-123) when
`get_storage()` selects the local backend: load the whole collection, insert
or overwrite the id, write the whole collection back, return the id. -/
def save_allocation_local {α : Type} (s : LocalFileStorage α)
    (allocation_id : String) (allocation_data : α) : String × LocalFileStorage α :=
  let allocations := s.load_allocations
  (allocation_id, s.save_allocations (setKey allocations allocation_id allocation_data))

/-- Module-level `load_allocations` (lines 126-129), local backend. -/
def load_allocations_local {α : Type} (s : LocalFileStorage α) :
    List (String × α) :=
  s.load_allocations

/-- Module-level `save_task` (`storage.py` lines 108-114), local backend. -/
def save_task_local {α : Type} (s : LocalFileStorage α)
    (allocation_id : String) (task_data : α) : String × LocalFileStorage α :=
  let tasks := s.load_tasks
  (allocation_id, s.save_tasks (setKey tasks allocation_id task_data))

/-- Module-level `load_tasks` (lines 132-135), local backend. -/
def load_tasks_local {α : Type} (s : LocalFileStorage α) : List (String × α) :=
  s.load_tasks

/-- Module-level `save_allocation` when `get_storage()` selects the S3
backend; the load step can propagate a (non-`NoSuchKey`) client error. -/
def save_allocation_cloud {α : Type} (s : CloudObjectStorage α)
    (allocation_id : String) (allocation_data : α) :
    Except String (String × CloudObjectStorage α) :=
  match s.load_allocations with
  | .ok allocations =>
      .ok (allocation_id, s.save_allocations (setKey allocations allocation_id allocation_data))
  | .error e => .error e

/-- Module-level `load_allocations`, S3 backend. -/
def load_allocations_cloud {α : Type} (s : CloudObjectStorage α) :
    Except String (List (String × α)) :=
  s.load_allocations

/-- Module-level `save_task`, S3 backend. -/
def save_task_cloud {α : Type} (s : CloudObjectStorage α)
    (allocation_id : String) (task_data : α) :
    Except String (String × CloudObjectStorage α) :=
  match s.load_tasks with
  | .ok tasks =>
      .ok (allocation_id, s.save_tasks (setKey tasks allocation_id task_data))
  | .error e => .error e

/-- Module-level `load_tasks`, S3 backend. -/
def load_tasks_cloud {α : Type} (s : CloudObjectStorage α) :
    Except String (List (String × α)) :=
  s.load_tasks

/-! ## Task persistence and the task listing filter
(`allocator_bot/agent.py` lines 160-167, `allocator_bot/api.py` lines 371-411) -/

/-- JSON values stored in a persisted task record. -/
inductive JValue where
  | str (s : String)
  | num (q : ℚ)
  | arr (xs : List String)
  | null
deriving DecidableEq, Repr

/-- `TaskStructure` (`models.py`): the structured task the agent resolves. -/
structure TaskStructure where
  task : String
  asset_symbols : List String
  total_investment : ℚ
  start_date : String
  end_date : Option String
  risk_free_rate : ℚ
  target_return : ℚ
  target_volatility : ℚ

/-- `agent.py` lines 160-163: `task_to_save = task_structure.model_dump()`,
`task_to_save.pop("task")`, `task_to_save["date"] = date.today().isoformat()`.
The creation date is stored under the key `"date"`. -/
def task_to_save (t : TaskStructure) (today : String) : List (String × JValue) :=
  [("asset_symbols", .arr t.asset_symbols),
   ("total_investment", .num t.total_investment),
   ("start_date", .str t.start_date),
   ("end_date", match t.end_date with | some d => .str d | none => .null),
   ("risk_free_rate", .num t.risk_free_rate),
   ("target_return", .num t.target_return),
   ("target_volatility", .num t.target_volatility),
   ("date", .str today)]

/-- `task_data.get(k, default)` restricted to string-valued fields. -/
def jGetStr (d : List (String × JValue)) (k : String) (dflt : String) : String :=
  match dictGet d k with
  | some (.str s) => s
  | _ => dflt

/-- `task_data.get(k, [])` for the list-valued `asset_symbols` field. -/
def jGetArr (d : List (String × JValue)) (k : String) : List String :=
  match dictGet d k with
  | some (.arr xs) => xs
  | _ => []

/-- Python string `<`: lexicographic comparison of code points, shorter string
first on a tie. -/
def pyStrLtAux : List Char → List Char → Bool
  | [], [] => false
  | [], _ :: _ => true
  | _ :: _, [] => false
  | c :: cs, d :: ds => if c = d then pyStrLtAux cs ds else c.val < d.val

/-- Python string `<=` (used by the pandas elementwise comparisons in
`get_task_data`). -/
def pyStrLe (s t : String) : Bool :=
  s = t || pyStrLtAux s.toList t.toList

/-- The columns of the task DataFrame that the filters in `get_task_data`
read: `Task ID`, `Timestamp` (from `task_data.get("timestamp", "")`) and
`Assets` (from `", ".join(task_data.get("asset_symbols", []))`). -/
structure TaskRowView where
  taskId : String
  timestamp : String
  assets : String
deriving DecidableEq, Repr

/-- One DataFrame row per stored task (`api.py` lines 383-397). -/
def taskRow (p : String × List (String × JValue)) : TaskRowView :=
  { taskId := p.1,
    timestamp := jGetStr p.2 "timestamp" "",
    assets := String.intercalate ", " (jGetArr p.2 "asset_symbols") }

/-- Python `needle in haystack` substring test. -/
def strContainsSubstr (haystack needle : String) : Bool :=
  (List.range (haystack.toList.length + 1)).any
    (fun i => needle.toList.isPrefixOf (haystack.toList.drop i))

/-- Stable insert for the descending-by-timestamp sort. -/
def insertByTimestampDesc (r : TaskRowView) :
    List TaskRowView → List TaskRowView
  | [] => [r]
  | x :: xs =>
      if pyStrLe r.timestamp x.timestamp then x :: insertByTimestampDesc r xs
      else r :: x :: xs

/-- `df.sort_values("Timestamp", ascending=False)` (`api.py` line 409),
modelled as a stable descending sort by timestamp. -/
def sortByTimestampDesc : List TaskRowView → List TaskRowView
  | [] => []
  | x :: xs => insertByTimestampDesc x (sortByTimestampDesc xs)

/-- `get_task_data` (`api.py` lines 371-411): empty input short-circuits;
otherwise build one row per task, filter by
`df["Timestamp"].str[:10] >= start_date`, `df["Timestamp"].str[:10] <=
end_date` and case-insensitive substring match on `Assets`, then sort by
timestamp descending. -/
def get_task_data (tasks : List (String × List (String × JValue)))
    (start_date end_date symbol_search : Option String) : List TaskRowView :=
  if tasks = [] then []
  else
    let df := tasks.map taskRow
    let df := match start_date with
      | some sd => df.filter (fun r => pyStrLe sd (r.timestamp.take 10))
      | none => df
    let df := match end_date with
      | some ed => df.filter (fun r => pyStrLe (r.timestamp.take 10) ed)
      | none => df
    let df := match symbol_search with
      | some q => df.filter (fun r => strContainsSubstr r.assets.toUpper q.toUpper)
      | none => df
    sortByTimestampDesc df

/-! ## Helper lemmas about the optimizer's dictionaries -/

theorem dictGet_append_of_left_none {α : Type} {l₁ l₂ : List (String × α)} {k : String}
    (h : dictGet l₁ k = none) : dictGet (l₁ ++ l₂) k = dictGet l₂ k := by
  rw [dictGet_append, h, Option.none_or]

theorem dictGet_append_of_right_none {α : Type} {l₁ l₂ : List (String × α)} {k : String}
    (h : dictGet l₂ k = none) : dictGet (l₁ ++ l₂) k = dictGet l₁ k := by
  rw [dictGet_append, h, Option.or_none]

theorem maxSharpeEntries_results_keys (f : Frontier) (rf : ℚ) :
    ∀ p ∈ (maxSharpeEntries f rf).1, p.1 = "max_sharpe" := by
  unfold maxSharpeEntries
  rcases f.maxSharpe rf with e | w <;> simp

theorem maxSharpeEntries_failures_keys (f : Frontier) (rf : ℚ) :
    ∀ p ∈ (maxSharpeEntries f rf).2, p.1 = "max_sharpe" := by
  unfold maxSharpeEntries
  rcases f.maxSharpe rf with e | w <;> simp

theorem minVolatilityEntries_results_keys (f : Frontier) :
    ∀ p ∈ (minVolatilityEntries f).1, p.1 = "min_volatility" := by
  unfold minVolatilityEntries
  rcases f.minVolatility with e | wv <;> simp

theorem minVolatilityEntries_failures_keys (f : Frontier) :
    ∀ p ∈ (minVolatilityEntries f).2.1, p.1 = "min_volatility" := by
  unfold minVolatilityEntries
  rcases f.minVolatility with e | wv <;> simp

theorem efficientRiskEntries_results_keys (f : Frontier) (tv : ℚ) (mv : Option ℚ) :
    ∀ p ∈ (efficientRiskEntries f tv mv).1, p.1 = "efficient_risk" := by
  unfold efficientRiskEntries
  rcases mv with _ | mvv
  · simp
  · by_cases h : tv ≤ mvv
    · simp only [if_pos h]
      rcases f.efficientRisk (mvv * (101 / 100)) with e | w <;> simp
    · simp only [if_neg h]
      rcases f.efficientRisk tv with e | w <;> simp

theorem efficientRiskEntries_failures_keys (f : Frontier) (tv : ℚ) (mv : Option ℚ) :
    ∀ p ∈ (efficientRiskEntries f tv mv).2,
      p.1 = "efficient_risk" ∨ p.1 = "efficient_risk_note" := by
  unfold efficientRiskEntries
  rcases mv with _ | mvv
  · simp
  · by_cases h : tv ≤ mvv
    · simp only [if_pos h]
      rcases f.efficientRisk (mvv * (101 / 100)) with e | w <;> simp
    · simp only [if_neg h]
      rcases f.efficientRisk tv with e | w <;> simp

theorem efficientReturnEntries_results_keys (f : Frontier) (tr : ℚ) :
    ∀ p ∈ (efficientReturnEntries f tr).1, p.1 = "efficient_return" := by
  unfold efficientReturnEntries
  by_cases h : f.maxIndividualReturn ≤ tr
  · simp only [if_pos h]
    rcases f.efficientReturn (f.maxIndividualReturn * (99 / 100)) with e | w <;> simp
  · simp only [if_neg h]
    rcases f.efficientReturn tr with e | w <;> simp

theorem efficientReturnEntries_failures_keys (f : Frontier) (tr : ℚ) :
    ∀ p ∈ (efficientReturnEntries f tr).2,
      p.1 = "efficient_return" ∨ p.1 = "efficient_return_note" := by
  unfold efficientReturnEntries
  by_cases h : f.maxIndividualReturn ≤ tr
  · simp only [if_pos h]
    rcases f.efficientReturn (f.maxIndividualReturn * (99 / 100)) with e | w <;> simp
  · simp only [if_neg h]
    rcases f.efficientReturn tr with e | w <;> simp

theorem dictGet_none_of_key_eq {α : Type} {l : List (String × α)} {a k : String}
    (hall : ∀ p ∈ l, p.1 = a) (hk : a ≠ k) : dictGet l k = none :=
  dictGet_eq_none_of_keys_ne (fun p hp => (hall p hp) ▸ hk)

theorem dictGet_none_of_key_or {α : Type} {l : List (String × α)} {a b k : String}
    (hall : ∀ p ∈ l, p.1 = a ∨ p.1 = b) (ha : a ≠ k) (hb : b ≠ k) :
    dictGet l k = none :=
  dictGet_eq_none_of_keys_ne (fun p hp => by
    rcases hall p hp with h | h
    · exact h ▸ ha
    · exact h ▸ hb)

theorem results_proj (f : Frontier) (rf tr tv k) :
    dictGet (optimize_portfolio f rf tr tv).1 k =
      ((dictGet (maxSharpeEntries f rf).1 k).or
        ((dictGet (minVolatilityEntries f).1 k).or
          ((dictGet (efficientRiskEntries f tv (minVolatilityEntries f).2.2).1 k).or
            (dictGet (efficientReturnEntries f tr).1 k)))) := by
  simp only [optimize_portfolio, List.append_assoc, dictGet_append]

theorem failures_proj (f : Frontier) (rf tr tv k) :
    dictGet (optimize_portfolio f rf tr tv).2 k =
      ((dictGet (maxSharpeEntries f rf).2 k).or
        ((dictGet (minVolatilityEntries f).2.1 k).or
          ((dictGet (efficientRiskEntries f tv (minVolatilityEntries f).2.2).2 k).or
            (dictGet (efficientReturnEntries f tr).2 k)))) := by
  simp only [optimize_portfolio, List.append_assoc, dictGet_append]

/-! ## Claim theorems -/

/-- C2: whenever the minimum achievable volatility `v` is known (and, being a
volatility, positive) and the requested `target_volatility` is at most `v`,
the `efficient_risk` model is re-solved at the auto-adjusted target
`v * 1.01` — strictly above both `v` and the original target — and either
succeeds with an adjustment note recorded under `efficient_risk_note`, or is
recorded as failed with an explanatory message; in neither case is a result
solved at the original infeasible target returned. -/
theorem efficient_risk_infeasible_target_adjusted_or_failed
    (f : Frontier) (rf tr tv : ℚ) (w₀ : Weights) (v : ℚ)
    (hmin : f.minVolatility = .ok (w₀, v)) (hpos : 0 < v) (hle : tv ≤ v) :
    tv < v * (101 / 100) ∧ v < v * (101 / 100) ∧
    ((∃ w, f.efficientRisk (v * (101 / 100)) = .ok w ∧
        dictGet (optimize_portfolio f rf tr tv).1 "efficient_risk" = some w ∧
        dictGet (optimize_portfolio f rf tr tv).2 "efficient_risk_note" =
          some (volAdjustedNote tv (v * (101 / 100)))) ∨
     (∃ e, f.efficientRisk (v * (101 / 100)) = .error e ∧
        dictGet (optimize_portfolio f rf tr tv).1 "efficient_risk" = none ∧
        dictGet (optimize_portfolio f rf tr tv).2 "efficient_risk" =
          some ("Failed even with adjustment: " ++ e))) := by
  have hadj : v < v * (101 / 100) := by nlinarith
  have hmv : (minVolatilityEntries f).2.2 = some v := by
    simp [minVolatilityEntries, hmin]
  have hs1 : dictGet (maxSharpeEntries f rf).1 "efficient_risk" = none :=
    dictGet_none_of_key_eq (maxSharpeEntries_results_keys f rf) (by decide)
  have hv1 : dictGet (minVolatilityEntries f).1 "efficient_risk" = none :=
    dictGet_none_of_key_eq (minVolatilityEntries_results_keys f) (by decide)
  have hret1 : dictGet (efficientReturnEntries f tr).1 "efficient_risk" = none :=
    dictGet_none_of_key_eq (efficientReturnEntries_results_keys f tr) (by decide)
  have hs2 : dictGet (maxSharpeEntries f rf).2 "efficient_risk" = none :=
    dictGet_none_of_key_eq (maxSharpeEntries_failures_keys f rf) (by decide)
  have hs2n : dictGet (maxSharpeEntries f rf).2 "efficient_risk_note" = none :=
    dictGet_none_of_key_eq (maxSharpeEntries_failures_keys f rf) (by decide)
  have hv2 : dictGet (minVolatilityEntries f).2.1 "efficient_risk" = none :=
    dictGet_none_of_key_eq (minVolatilityEntries_failures_keys f) (by decide)
  have hv2n : dictGet (minVolatilityEntries f).2.1 "efficient_risk_note" = none :=
    dictGet_none_of_key_eq (minVolatilityEntries_failures_keys f) (by decide)
  have hret2 : dictGet (efficientReturnEntries f tr).2 "efficient_risk" = none :=
    dictGet_none_of_key_or (efficientReturnEntries_failures_keys f tr)
      (by decide) (by decide)
  have hret2n : dictGet (efficientReturnEntries f tr).2 "efficient_risk_note" = none :=
    dictGet_none_of_key_or (efficientReturnEntries_failures_keys f tr)
      (by decide) (by decide)
  refine ⟨lt_of_le_of_lt hle hadj, hadj, ?_⟩
  rcases hr : f.efficientRisk (v * (101 / 100)) with e | w
  · have hrseg : efficientRiskEntries f tv (some v) =
        ([], [("efficient_risk", "Failed even with adjustment: " ++ e)]) := by
      simp [efficientRiskEntries, if_pos hle, hr]
    refine .inr ⟨e, rfl, ?_, ?_⟩
    · rw [results_proj, hmv, hrseg, hs1, hv1, hret1]
      simp [dictGet]
    · rw [failures_proj, hmv, hrseg, hs2, hv2, hret2]
      simp [dictGet]
  · have hrseg : efficientRiskEntries f tv (some v) =
        ([("efficient_risk", w)],
         [("efficient_risk_note", volAdjustedNote tv (v * (101 / 100)))]) := by
      simp [efficientRiskEntries, if_pos hle, hr]
    refine .inl ⟨w, rfl, ?_, ?_⟩
    · rw [results_proj, hmv, hrseg, hs1, hv1, hret1]
      simp [dictGet]
    · rw [failures_proj, hmv, hrseg, hs2n, hv2n, hret2n]
      simp [dictGet]

/-- A concrete solver oracle on which all four solves succeed, used to
instantiate hypothesis-bearing theorems. -/
def wFrontier : Frontier where
  maxSharpe := fun _ => .ok [("AAPL", 1/2), ("GOOG", 1/2)]
  minVolatility := .ok ([("AAPL", 1)], 1/10)
  efficientRisk := fun _ => .ok [("AAPL", 3/10), ("GOOG", 7/10)]
  efficientReturn := fun _ => .ok [("AAPL", 2/5), ("GOOG", 3/5)]
  maxIndividualReturn := 1/5

/-- Witness for C2 at a concrete input: minimum volatility `0.1`, requested
target `0.05`. -/
theorem efficient_risk_infeasible_target_adjusted_or_failed_witness :
    wFrontier.minVolatility = .ok ([("AAPL", 1)], 1/10) ∧ (0 : ℚ) < 1/10 ∧
    (1/20 : ℚ) ≤ 1/10 ∧
    ((1/20 : ℚ) < (1/10 : ℚ) * (101 / 100) ∧ (1/10 : ℚ) < (1/10 : ℚ) * (101 / 100) ∧
    ((∃ w, wFrontier.efficientRisk ((1/10 : ℚ) * (101 / 100)) = .ok w ∧
        dictGet (optimize_portfolio wFrontier (1/20) (3/20) (1/20)).1 "efficient_risk" = some w ∧
        dictGet (optimize_portfolio wFrontier (1/20) (3/20) (1/20)).2 "efficient_risk_note" =
          some (volAdjustedNote (1/20) ((1/10 : ℚ) * (101 / 100)))) ∨
     (∃ e, wFrontier.efficientRisk ((1/10 : ℚ) * (101 / 100)) = .error e ∧
        dictGet (optimize_portfolio wFrontier (1/20) (3/20) (1/20)).1 "efficient_risk" = none ∧
        dictGet (optimize_portfolio wFrontier (1/20) (3/20) (1/20)).2 "efficient_risk" =
          some ("Failed even with adjustment: " ++ e)))) :=
  ⟨rfl, by norm_num, by norm_num,
    efficient_risk_infeasible_target_adjusted_or_failed wFrontier (1/20) (3/20) (1/20)
      [("AAPL", 1)] (1/10) rfl (by norm_num) (by norm_num)⟩

/-- C3: whenever the requested `target_return` is at or above
`max_individual_return` (the maximum single-asset expected return in `mu`,
positive here so that the 1% buffer moves the target downward), the
`efficient_return` model is re-solved at the auto-adjusted target
`max_individual_return * 0.99` — strictly below that ceiling — and either
succeeds with an adjustment note recorded under `efficient_return_note`, or is
recorded as failed with an explanatory message. -/
theorem efficient_return_infeasible_target_adjusted_or_failed
    (f : Frontier) (rf tr tv : ℚ)
    (hpos : 0 < f.maxIndividualReturn) (hge : f.maxIndividualReturn ≤ tr) :
    f.maxIndividualReturn * (99 / 100) < f.maxIndividualReturn ∧
    ((∃ w, f.efficientReturn (f.maxIndividualReturn * (99 / 100)) = .ok w ∧
        dictGet (optimize_portfolio f rf tr tv).1 "efficient_return" = some w ∧
        dictGet (optimize_portfolio f rf tr tv).2 "efficient_return_note" =
          some (returnAdjustedNote tr (f.maxIndividualReturn * (99 / 100)))) ∨
     (∃ e, f.efficientReturn (f.maxIndividualReturn * (99 / 100)) = .error e ∧
        dictGet (optimize_portfolio f rf tr tv).1 "efficient_return" = none ∧
        dictGet (optimize_portfolio f rf tr tv).2 "efficient_return" =
          some ("Failed even with adjustment: " ++ e))) := by
  have hadj : f.maxIndividualReturn * (99 / 100) < f.maxIndividualReturn := by nlinarith
  have hs1 : dictGet (maxSharpeEntries f rf).1 "efficient_return" = none :=
    dictGet_none_of_key_eq (maxSharpeEntries_results_keys f rf) (by decide)
  have hv1 : dictGet (minVolatilityEntries f).1 "efficient_return" = none :=
    dictGet_none_of_key_eq (minVolatilityEntries_results_keys f) (by decide)
  have hr1 : dictGet (efficientRiskEntries f tv (minVolatilityEntries f).2.2).1
      "efficient_return" = none :=
    dictGet_none_of_key_eq (efficientRiskEntries_results_keys f tv _) (by decide)
  have hs2 : dictGet (maxSharpeEntries f rf).2 "efficient_return" = none :=
    dictGet_none_of_key_eq (maxSharpeEntries_failures_keys f rf) (by decide)
  have hs2n : dictGet (maxSharpeEntries f rf).2 "efficient_return_note" = none :=
    dictGet_none_of_key_eq (maxSharpeEntries_failures_keys f rf) (by decide)
  have hv2 : dictGet (minVolatilityEntries f).2.1 "efficient_return" = none :=
    dictGet_none_of_key_eq (minVolatilityEntries_failures_keys f) (by decide)
  have hv2n : dictGet (minVolatilityEntries f).2.1 "efficient_return_note" = none :=
    dictGet_none_of_key_eq (minVolatilityEntries_failures_keys f) (by decide)
  have hr2 : dictGet (efficientRiskEntries f tv (minVolatilityEntries f).2.2).2
      "efficient_return" = none :=
    dictGet_none_of_key_or (efficientRiskEntries_failures_keys f tv _)
      (by decide) (by decide)
  have hr2n : dictGet (efficientRiskEntries f tv (minVolatilityEntries f).2.2).2
      "efficient_return_note" = none :=
    dictGet_none_of_key_or (efficientRiskEntries_failures_keys f tv _)
      (by decide) (by decide)
  refine ⟨hadj, ?_⟩
  rcases hr : f.efficientReturn (f.maxIndividualReturn * (99 / 100)) with e | w
  · have hrseg : efficientReturnEntries f tr =
        ([], [("efficient_return", "Failed even with adjustment: " ++ e)]) := by
      simp [efficientReturnEntries, if_pos hge, hr]
    refine .inr ⟨e, rfl, ?_, ?_⟩
    · rw [results_proj, hrseg, hs1, hv1, hr1]
      simp [dictGet]
    · rw [failures_proj, hrseg, hs2, hv2, hr2]
      simp [dictGet]
  · have hrseg : efficientReturnEntries f tr =
        ([("efficient_return", w)],
         [("efficient_return_note",
           returnAdjustedNote tr (f.maxIndividualReturn * (99 / 100)))]) := by
      simp [efficientReturnEntries, if_pos hge, hr]
    refine .inl ⟨w, rfl, ?_, ?_⟩
    · rw [results_proj, hrseg, hs1, hv1, hr1]
      simp [dictGet]
    · rw [failures_proj, hrseg, hs2n, hv2n, hr2n]
      simp [dictGet]

/-- Witness for C3 at a concrete input: ceiling `0.2`, requested target `0.3`. -/
theorem efficient_return_infeasible_target_adjusted_or_failed_witness :
    (0 : ℚ) < wFrontier.maxIndividualReturn ∧ wFrontier.maxIndividualReturn ≤ 3/10 ∧
    (wFrontier.maxIndividualReturn * (99 / 100) < wFrontier.maxIndividualReturn ∧
    ((∃ w, wFrontier.efficientReturn (wFrontier.maxIndividualReturn * (99 / 100)) = .ok w ∧
        dictGet (optimize_portfolio wFrontier (1/20) (3/10) (3/20)).1 "efficient_return" = some w ∧
        dictGet (optimize_portfolio wFrontier (1/20) (3/10) (3/20)).2 "efficient_return_note" =
          some (returnAdjustedNote (3/10) (wFrontier.maxIndividualReturn * (99 / 100)))) ∨
     (∃ e, wFrontier.efficientReturn (wFrontier.maxIndividualReturn * (99 / 100)) = .error e ∧
        dictGet (optimize_portfolio wFrontier (1/20) (3/10) (3/20)).1 "efficient_return" = none ∧
        dictGet (optimize_portfolio wFrontier (1/20) (3/10) (3/20)).2 "efficient_return" =
          some ("Failed even with adjustment: " ++ e)))) :=
  ⟨by norm_num [wFrontier], by norm_num [wFrontier],
    efficient_return_infeasible_target_adjusted_or_failed wFrontier (1/20) (3/10) (3/20)
      (by norm_num [wFrontier]) (by norm_num [wFrontier])⟩

theorem sharpe_results_other (f : Frontier) (rf : ℚ) {k : String}
    (h : "max_sharpe" ≠ k) : dictGet (maxSharpeEntries f rf).1 k = none :=
  dictGet_none_of_key_eq (maxSharpeEntries_results_keys f rf) h

theorem sharpe_failures_other (f : Frontier) (rf : ℚ) {k : String}
    (h : "max_sharpe" ≠ k) : dictGet (maxSharpeEntries f rf).2 k = none :=
  dictGet_none_of_key_eq (maxSharpeEntries_failures_keys f rf) h

theorem vol_results_other (f : Frontier) {k : String}
    (h : "min_volatility" ≠ k) : dictGet (minVolatilityEntries f).1 k = none :=
  dictGet_none_of_key_eq (minVolatilityEntries_results_keys f) h

theorem vol_failures_other (f : Frontier) {k : String}
    (h : "min_volatility" ≠ k) : dictGet (minVolatilityEntries f).2.1 k = none :=
  dictGet_none_of_key_eq (minVolatilityEntries_failures_keys f) h

theorem risk_results_other (f : Frontier) (tv : ℚ) (mv : Option ℚ) {k : String}
    (h : "efficient_risk" ≠ k) : dictGet (efficientRiskEntries f tv mv).1 k = none :=
  dictGet_none_of_key_eq (efficientRiskEntries_results_keys f tv mv) h

theorem risk_failures_other (f : Frontier) (tv : ℚ) (mv : Option ℚ) {k : String}
    (h1 : "efficient_risk" ≠ k) (h2 : "efficient_risk_note" ≠ k) :
    dictGet (efficientRiskEntries f tv mv).2 k = none :=
  dictGet_none_of_key_or (efficientRiskEntries_failures_keys f tv mv) h1 h2

theorem ret_results_other (f : Frontier) (tr : ℚ) {k : String}
    (h : "efficient_return" ≠ k) : dictGet (efficientReturnEntries f tr).1 k = none :=
  dictGet_none_of_key_eq (efficientReturnEntries_results_keys f tr) h

theorem ret_failures_other (f : Frontier) (tr : ℚ) {k : String}
    (h1 : "efficient_return" ≠ k) (h2 : "efficient_return_note" ≠ k) :
    dictGet (efficientReturnEntries f tr).2 k = none :=
  dictGet_none_of_key_or (efficientReturnEntries_failures_keys f tr) h1 h2

theorem sharpe_xor (f : Frontier) (rf : ℚ) :
    (dictGet (maxSharpeEntries f rf).1 "max_sharpe").isSome
      = !((dictGet (maxSharpeEntries f rf).2 "max_sharpe").isSome) := by
  unfold maxSharpeEntries
  rcases f.maxSharpe rf with e | w <;> simp [dictGet]

theorem vol_xor (f : Frontier) :
    (dictGet (minVolatilityEntries f).1 "min_volatility").isSome
      = !((dictGet (minVolatilityEntries f).2.1 "min_volatility").isSome) := by
  unfold minVolatilityEntries
  rcases f.minVolatility with e | wv <;> simp [dictGet]

theorem risk_xor (f : Frontier) (tv : ℚ) (mv : Option ℚ) :
    (dictGet (efficientRiskEntries f tv mv).1 "efficient_risk").isSome
      = !((dictGet (efficientRiskEntries f tv mv).2 "efficient_risk").isSome) := by
  unfold efficientRiskEntries
  rcases mv with _ | mvv
  · simp [dictGet]
  · by_cases h : tv ≤ mvv
    · simp only [if_pos h]
      rcases f.efficientRisk (mvv * (101 / 100)) with e | w <;> simp [dictGet]
    · simp only [if_neg h]
      rcases f.efficientRisk tv with e | w <;> simp [dictGet]

theorem ret_xor (f : Frontier) (tr : ℚ) :
    (dictGet (efficientReturnEntries f tr).1 "efficient_return").isSome
      = !((dictGet (efficientReturnEntries f tr).2 "efficient_return").isSome) := by
  unfold efficientReturnEntries
  by_cases h : f.maxIndividualReturn ≤ tr
  · simp only [if_pos h]
    rcases f.efficientReturn (f.maxIndividualReturn * (99 / 100)) with e | w <;> simp [dictGet]
  · simp only [if_neg h]
    rcases f.efficientReturn tr with e | w <;> simp [dictGet]

theorem risk_note_implies_result (f : Frontier) (tv : ℚ) (mv : Option ℚ) :
    dictGet (efficientRiskEntries f tv mv).2 "efficient_risk_note" ≠ none →
      dictGet (efficientRiskEntries f tv mv).1 "efficient_risk" ≠ none := by
  unfold efficientRiskEntries
  rcases mv with _ | mvv
  · simp [dictGet]
  · by_cases h : tv ≤ mvv
    · simp only [if_pos h]
      rcases f.efficientRisk (mvv * (101 / 100)) with e | w <;> simp [dictGet]
    · simp only [if_neg h]
      rcases f.efficientRisk tv with e | w <;> simp [dictGet]

theorem ret_note_implies_result (f : Frontier) (tr : ℚ) :
    dictGet (efficientReturnEntries f tr).2 "efficient_return_note" ≠ none →
      dictGet (efficientReturnEntries f tr).1 "efficient_return" ≠ none := by
  unfold efficientReturnEntries
  by_cases h : f.maxIndividualReturn ≤ tr
  · simp only [if_pos h]
    rcases f.efficientReturn (f.maxIndividualReturn * (99 / 100)) with e | w <;> simp [dictGet]
  · simp only [if_neg h]
    rcases f.efficientReturn tr with e | w <;> simp [dictGet]

/-- C6: each of the four model names ends up in exactly one of the two
returned mappings — `results` on success, `failures` on failure, never both
and never neither — and an `"<model>_note"` key is present in `failures` only
when `results` also holds an entry for that model. -/
theorem optimize_portfolio_model_partition (f : Frontier) (rf tr tv : ℚ) :
    (∀ m ∈ fourModels,
      (dictGet (optimize_portfolio f rf tr tv).1 m).isSome
        = !((dictGet (optimize_portfolio f rf tr tv).2 m).isSome)) ∧
    (dictGet (optimize_portfolio f rf tr tv).2 "efficient_risk_note" ≠ none →
      dictGet (optimize_portfolio f rf tr tv).1 "efficient_risk" ≠ none) ∧
    (dictGet (optimize_portfolio f rf tr tv).2 "efficient_return_note" ≠ none →
      dictGet (optimize_portfolio f rf tr tv).1 "efficient_return" ≠ none) := by
  refine ⟨?_, ?_, ?_⟩
  · intro m hm
    simp only [fourModels, List.mem_cons, List.not_mem_nil, or_false] at hm
    rcases hm with rfl | rfl | rfl | rfl
    · rw [results_proj, failures_proj,
        vol_results_other f (by decide), risk_results_other f tv _ (by decide),
        ret_results_other f tr (by decide),
        vol_failures_other f (by decide),
        risk_failures_other f tv _ (by decide) (by decide),
        ret_failures_other f tr (by decide) (by decide)]
      simpa [Option.or_none] using sharpe_xor f rf
    · rw [results_proj, failures_proj,
        sharpe_results_other f rf (by decide), risk_results_other f tv _ (by decide),
        ret_results_other f tr (by decide),
        sharpe_failures_other f rf (by decide),
        risk_failures_other f tv _ (by decide) (by decide),
        ret_failures_other f tr (by decide) (by decide)]
      simpa [Option.or_none, Option.none_or] using vol_xor f
    · rw [results_proj, failures_proj,
        sharpe_results_other f rf (by decide), vol_results_other f (by decide),
        ret_results_other f tr (by decide),
        sharpe_failures_other f rf (by decide), vol_failures_other f (by decide),
        ret_failures_other f tr (by decide) (by decide)]
      simpa [Option.or_none, Option.none_or] using risk_xor f tv _
    · rw [results_proj, failures_proj,
        sharpe_results_other f rf (by decide), vol_results_other f (by decide),
        risk_results_other f tv _ (by decide),
        sharpe_failures_other f rf (by decide), vol_failures_other f (by decide),
        risk_failures_other f tv _ (by decide) (by decide)]
      simpa [Option.or_none, Option.none_or] using ret_xor f tr
  · rw [results_proj, failures_proj,
      sharpe_results_other f rf (by decide), vol_results_other f (by decide),
      ret_results_other f tr (by decide),
      sharpe_failures_other f rf (by decide), vol_failures_other f (by decide),
      ret_failures_other f tr (by decide) (by decide)]
    simpa [Option.or_none, Option.none_or] using risk_note_implies_result f tv _
  · rw [results_proj, failures_proj,
      sharpe_results_other f rf (by decide), vol_results_other f (by decide),
      risk_results_other f tv _ (by decide),
      sharpe_failures_other f rf (by decide), vol_failures_other f (by decide),
      risk_failures_other f tv _ (by decide) (by decide)]
    simpa [Option.or_none, Option.none_or] using ret_note_implies_result f tr

/-- Witness for C6 at a concrete input on which both constrained models are
auto-adjusted, so both note keys are present. -/
theorem optimize_portfolio_model_partition_witness :
    ("max_sharpe" ∈ fourModels) ∧
    ((dictGet (optimize_portfolio wFrontier (1/20) (3/10) (1/20)).1 "max_sharpe").isSome
      = !((dictGet (optimize_portfolio wFrontier (1/20) (3/10) (1/20)).2 "max_sharpe").isSome)) ∧
    (dictGet (optimize_portfolio wFrontier (1/20) (3/10) (1/20)).2 "efficient_risk_note" ≠ none) ∧
    (dictGet (optimize_portfolio wFrontier (1/20) (3/10) (1/20)).1 "efficient_risk" ≠ none) ∧
    (dictGet (optimize_portfolio wFrontier (1/20) (3/10) (1/20)).2 "efficient_return_note" ≠ none) ∧
    (dictGet (optimize_portfolio wFrontier (1/20) (3/10) (1/20)).1 "efficient_return" ≠ none) := by
  have hriskn : dictGet (optimize_portfolio wFrontier (1/20) (3/10) (1/20)).2
      "efficient_risk_note" ≠ none := by
    norm_num [optimize_portfolio, maxSharpeEntries, minVolatilityEntries,
      efficientRiskEntries, efficientReturnEntries, wFrontier, dictGet]
    simp
  have hretn : dictGet (optimize_portfolio wFrontier (1/20) (3/10) (1/20)).2
      "efficient_return_note" ≠ none := by
    norm_num [optimize_portfolio, maxSharpeEntries, minVolatilityEntries,
      efficientRiskEntries, efficientReturnEntries, wFrontier, dictGet]
    simp
  exact ⟨by simp [fourModels],
    (optimize_portfolio_model_partition wFrontier (1/20) (3/10) (1/20)).1
      "max_sharpe" (by simp [fourModels]),
    hriskn,
    (optimize_portfolio_model_partition wFrontier (1/20) (3/10) (1/20)).2.1 hriskn,
    hretn,
    (optimize_portfolio_model_partition wFrontier (1/20) (3/10) (1/20)).2.2 hretn⟩

/-- A concrete solver oracle on which every solve raises, as happens for a
degenerate covariance matrix. -/
def failFrontier : Frontier where
  maxSharpe := fun _ => .error "Solver error"
  minVolatility := .error "Solver error"
  efficientRisk := fun _ => .error "Solver error"
  efficientReturn := fun _ => .error "Solver error"
  maxIndividualReturn := 1

/-- C1, counterexample to the claim as stated: the `results` mapping returned
by `optimize_portfolio` does NOT always contain the four model names as keys —
a model whose solve raises is recorded in `failures` instead, and with every
solve failing `results` is empty. -/
theorem results_alone_not_always_four_keys :
    ¬ ∀ (f : Frontier) (rf tr tv : ℚ),
      (optimize_portfolio f rf tr tv).1.map Prod.fst =
        ["max_sharpe", "min_volatility", "efficient_risk", "efficient_return"] := by
  intro h
  have h0 := h failFrontier 0 0 0
  norm_num [optimize_portfolio, maxSharpeEntries, minVolatilityEntries,
    efficientRiskEntries, efficientReturnEntries, failFrontier] at h0
  exact List.cons_ne_nil _ _ h0

theorem perm_four_interleave {α : Type} [DecidableEq α]
    (a₁ a₂ a₃ a₄ b₁ b₂ b₃ b₄ : List α) :
    ((a₁ ++ a₂ ++ a₃ ++ a₄) ++ (b₁ ++ b₂ ++ b₃ ++ b₄)).Perm
      ((a₁ ++ b₁) ++ (a₂ ++ b₂) ++ (a₃ ++ b₃) ++ (a₄ ++ b₄)) := by
  rw [List.perm_iff_count]
  intro a
  simp only [List.count_append]
  ring

theorem sharpe_modelKeys (f : Frontier) (rf : ℚ) :
    (maxSharpeEntries f rf).1.map Prod.fst ++
      ((maxSharpeEntries f rf).2.map Prod.fst).filter (fun k => decide (k ∈ fourModels)) =
      ["max_sharpe"] := by
  unfold maxSharpeEntries
  rcases f.maxSharpe rf with e | w <;> simp [fourModels]

theorem vol_modelKeys (f : Frontier) :
    (minVolatilityEntries f).1.map Prod.fst ++
      ((minVolatilityEntries f).2.1.map Prod.fst).filter (fun k => decide (k ∈ fourModels)) =
      ["min_volatility"] := by
  unfold minVolatilityEntries
  rcases f.minVolatility with e | wv <;> simp [fourModels]

theorem risk_modelKeys (f : Frontier) (tv : ℚ) (mv : Option ℚ) :
    (efficientRiskEntries f tv mv).1.map Prod.fst ++
      ((efficientRiskEntries f tv mv).2.map Prod.fst).filter
        (fun k => decide (k ∈ fourModels)) = ["efficient_risk"] := by
  unfold efficientRiskEntries
  rcases mv with _ | mvv
  · simp [fourModels]
  · by_cases h : tv ≤ mvv
    · simp only [if_pos h]
      rcases f.efficientRisk (mvv * (101 / 100)) with e | w <;> simp [fourModels]
    · simp only [if_neg h]
      rcases f.efficientRisk tv with e | w <;> simp [fourModels]

theorem ret_modelKeys (f : Frontier) (tr : ℚ) :
    (efficientReturnEntries f tr).1.map Prod.fst ++
      ((efficientReturnEntries f tr).2.map Prod.fst).filter
        (fun k => decide (k ∈ fourModels)) = ["efficient_return"] := by
  unfold efficientReturnEntries
  by_cases h : f.maxIndividualReturn ≤ tr
  · simp only [if_pos h]
    rcases f.efficientReturn (f.maxIndividualReturn * (99 / 100)) with e | w <;>
      simp [fourModels]
  · simp only [if_neg h]
    rcases f.efficientReturn tr with e | w <;> simp [fourModels]

/-- C1, amended: for every solver oracle and constraint input, `results`
holds exactly the models whose solve succeeded, and taken together with the
model-named entries of `failures` the four model names are covered exactly
once each (as a multiset): each model is mapped either to a weight mapping in
`results` or to a failure string in `failures`. -/
theorem optimize_portfolio_covers_four_models (f : Frontier) (rf tr tv : ℚ) :
    ((optimize_portfolio f rf tr tv).1.map Prod.fst ++
      ((optimize_portfolio f rf tr tv).2.map Prod.fst).filter
        (fun k => decide (k ∈ fourModels))).Perm fourModels := by
  have h1 := sharpe_modelKeys f rf
  have h2 := vol_modelKeys f
  have h3 := risk_modelKeys f tv (minVolatilityEntries f).2.2
  have h4 := ret_modelKeys f tr
  simp only [optimize_portfolio, List.map_append, List.filter_append]
  refine (perm_four_interleave _ _ _ _ _ _ _ _).trans ?_
  rw [h1, h2, h3, h4]
  exact List.Perm.refl _

theorem pyInt_intCast (n : ℤ) : pyInt ((n : ℚ)) = n := by
  unfold pyInt
  rw [Rat.num_intCast, Rat.den_intCast]
  simp

theorem pyInt_pyFloorDiv (x y : ℚ) : pyInt (pyFloorDiv x y) = ⌊x / y⌋ := by
  unfold pyFloorDiv
  exact pyInt_intCast _

/-- C4: each computed share quantity is the floor of the proportional dollar
allocation divided by the latest price, and on the concrete example of the
spec — weights one half AAPL / one half GOOG, prices 150 and 2800, investment
100000 — the quantities are 333 and 17. -/
theorem calculate_quantities_floor_spec :
    (∀ (weights : Weights) (latest_prices : String → ℚ) (total_investment : ℚ)
        (t : String),
      dictGet (calculate_quantities weights latest_prices total_investment) t =
        (dictGet weights t).map (fun w => ⌊total_investment * w / latest_prices t⌋)) ∧
    calculate_quantities [("AAPL", 1/2), ("GOOG", 1/2)]
      (fun t => if t = "AAPL" then 150 else 2800) 100000 =
      [("AAPL", 333), ("GOOG", 17)] := by
  constructor
  · intro ws lp ti t
    induction ws with
    | nil => simp [calculate_quantities, dictGet]
    | cons p rest ih =>
        by_cases h : p.1 = t
        · subst h
          simp [calculate_quantities, dictGet, pyInt_pyFloorDiv]
        · simp only [calculate_quantities, List.map_cons, dictGet, h, if_false] at ih ⊢
          exact ih
  · norm_num [calculate_quantities, pyInt_pyFloorDiv]
    rw [if_neg (by decide : ¬("GOOG" : String) = "AAPL")]
    norm_num

/-- C9, counterexample to the claim as stated: when an explicit end date is
supplied and the start date is absent, the start date defaults to 365 days
before *today*, not one year before the supplied end date. -/
theorem start_date_default_ignores_explicit_end_date :
    ¬ ∀ (now : ℤ) (s e : Option ℤ),
      (e = none → (prepareAllocationDates s e now).2 = now) ∧
      (s = none → (prepareAllocationDates s e now).1 =
        (prepareAllocationDates s e now).2 - 365) := by
  intro h
  have h0 := (h 0 none (some 1000)).2 rfl
  norm_num [prepareAllocationDates] at h0

/-- C9, amended: an absent end date defaults to today (both in
`prepare_allocation` and in `fetch_historical_prices`), and an absent start
date defaults to 365 days before *today* — which coincides with 365 days
before the end date exactly when the end date also defaults. -/
theorem date_defaults_from_current_date (now : ℤ) (s e : Option ℤ) :
    (prepareAllocationDates s none now).2 = now ∧
    (prepareAllocationDates none e now).1 = now - 365 ∧
    (prepareAllocationDates none none now).1 =
      (prepareAllocationDates none none now).2 - 365 ∧
    fetchEndDate none now = now := by
  simp [prepareAllocationDates, fetchEndDate]

/-- C7: saving an allocation under id `x` and then loading all allocations
yields a collection mapping `x` to exactly the saved rows, for both the
local-file backend and the object-storage backend. -/
theorem save_allocation_load_round_trip {α : Type} (s : LocalFileStorage α)
    (c : CloudObjectStorage α) (x : String) (rows : α) :
    dictGet (load_allocations_local (save_allocation_local s x rows).2) x = some rows ∧
    ∃ c2 d, save_allocation_cloud c x rows = .ok (x, c2) ∧
      load_allocations_cloud c2 = .ok d ∧ dictGet d x = some rows := by
  constructor
  · simp [save_allocation_local, load_allocations_local,
      LocalFileStorage.save_allocations, LocalFileStorage.load_allocations,
      dictGet_setKey_self]
  · obtain ⟨d0, hd0⟩ : ∃ d0, c.load_allocations = .ok d0 := by
      unfold CloudObjectStorage.load_allocations s3GetObject
      cases dictGet c.objects c.allocation_data_file <;> simp
    refine ⟨c.save_allocations (setKey d0 x rows), setKey d0 x rows, ?_, ?_,
      dictGet_setKey_self _ _ _⟩
    · simp [save_allocation_cloud, hd0]
    · simp [load_allocations_cloud, CloudObjectStorage.load_allocations,
        s3GetObject, CloudObjectStorage.save_allocations, dictGet_setKey_self]

/-- C8: when the backing document is absent — missing file locally, missing
object key in the bucket — loading allocations and loading tasks both return
the empty collection instead of raising, on both backends. -/
theorem load_absent_returns_empty {α : Type} (s : LocalFileStorage α)
    (c : CloudObjectStorage α)
    (h1 : s.allocationsFile = none) (h2 : s.tasksFile = none)
    (h3 : dictGet c.objects c.allocation_data_file = none)
    (h4 : dictGet c.objects c.task_data_file = none) :
    load_allocations_local s = [] ∧ load_tasks_local s = [] ∧
    load_allocations_cloud c = .ok [] ∧ load_tasks_cloud c = .ok [] := by
  refine ⟨?_, ?_, ?_, ?_⟩ <;>
    simp [load_allocations_local, load_tasks_local,
      LocalFileStorage.load_allocations, LocalFileStorage.load_tasks,
      load_allocations_cloud, load_tasks_cloud,
      CloudObjectStorage.load_allocations, CloudObjectStorage.load_tasks,
      s3GetObject, h1, h2, h3, h4]

/-- An empty local store, for the C8 witness. -/
def emptyLocalStore : LocalFileStorage ℕ :=
  { allocationsFile := none, tasksFile := none }

/-- An empty bucket, for the C8 witness. -/
def emptyCloudStore : CloudObjectStorage ℕ :=
  { objects := [], allocation_data_file := "allocations.json",
    task_data_file := "tasks.json" }

/-- Witness for C8 on concrete empty stores. -/
theorem load_absent_returns_empty_witness :
    emptyLocalStore.allocationsFile = none ∧ emptyLocalStore.tasksFile = none ∧
    dictGet emptyCloudStore.objects emptyCloudStore.allocation_data_file = none ∧
    dictGet emptyCloudStore.objects emptyCloudStore.task_data_file = none ∧
    (load_allocations_local emptyLocalStore = [] ∧
     load_tasks_local emptyLocalStore = [] ∧
     load_allocations_cloud emptyCloudStore = .ok [] ∧
     load_tasks_cloud emptyCloudStore = .ok []) :=
  ⟨rfl, rfl, rfl, rfl,
    load_absent_returns_empty emptyLocalStore emptyCloudStore rfl rfl rfl rfl⟩

theorem sentinelRow_injective : Function.Injective sentinelRow := by
  intro a b hab
  rcases a with ⟨a1, a2⟩
  rcases b with ⟨b1, b2⟩
  simp only [sentinelRow, AllocationRow.mk.injEq, Option.some.injEq, and_true,
    true_and] at hab
  exact Prod.ext hab.1 hab.2

theorem note_none_of_mem_weight_rows
    {ow : List (String × Weights)} {lp : String → ℚ} {ti : ℚ} {r : AllocationRow}
    (h : r ∈ ow.flatMap (fun mw => weightRows mw lp ti)) : r.note = none := by
  rcases List.mem_flatMap.mp h with ⟨mw, _, hr⟩
  rcases List.mem_map.mp hr with ⟨sw, _, rfl⟩
  rfl

/-- C5: every entry of the failure/adjustment-note mapping yields exactly one
sentinel row — ticker `"N/A"`, weight `0.0`, quantity `0`, note set to the
message — in the composed table, and a model that succeeded after
auto-adjustment contributes both its full per-ticker rows (note `None`) and
the sentinel row carrying its `"<model>_note"` message. -/
theorem allocationRows_sentinel_per_failure
    (ow : List (String × Weights)) (fl : List (String × String))
    (lp : String → ℚ) (ti : ℚ)
    (hnodup : (fl.map Prod.fst).Nodup) :
    (∀ m msg, (m, msg) ∈ fl →
      (allocationRows ow fl lp ti).count
        { riskModel := m, ticker := "N/A", weight := 0, quantity := 0,
          note := some msg } = 1) ∧
    (∀ m w note_msg, (m, w) ∈ ow → (m ++ "_note", note_msg) ∈ fl →
      ((∀ t wt, (t, wt) ∈ w →
          ({ riskModel := m, ticker := t, weight := wt,
             quantity := (dictGet (calculate_quantities w lp ti) t).getD 0,
             note := none } : AllocationRow) ∈ allocationRows ow fl lp ti) ∧
        ({ riskModel := m ++ "_note", ticker := "N/A", weight := 0, quantity := 0,
           note := some note_msg } : AllocationRow) ∈ allocationRows ow fl lp ti)) := by
  constructor
  · intro m msg hmem
    unfold allocationRows
    rw [List.count_append]
    have hA : (ow.flatMap (fun mw => weightRows mw lp ti)).count
        ({ riskModel := m, ticker := "N/A", weight := 0, quantity := 0,
           note := some msg } : AllocationRow) = 0 := by
      rw [List.count_eq_zero]
      intro hmemA
      have := note_none_of_mem_weight_rows hmemA
      simp at this
    have hB : (fl.map sentinelRow).count
        ({ riskModel := m, ticker := "N/A", weight := 0, quantity := 0,
           note := some msg } : AllocationRow) = 1 := by
      have hc := List.count_map_of_injective fl sentinelRow sentinelRow_injective (m, msg)
      have h1 := List.count_eq_one_of_mem (List.Nodup.of_map Prod.fst hnodup) hmem
      exact hc.trans h1
    rw [hA, hB]
  · intro m w note_msg hmw hfl
    constructor
    · intro t wt htw
      refine List.mem_append.mpr (.inl ?_)
      refine List.mem_flatMap.mpr ⟨(m, w), hmw, ?_⟩
      exact List.mem_map.mpr ⟨(t, wt), htw, rfl⟩
    · refine List.mem_append.mpr (.inr ?_)
      exact List.mem_map.mpr ⟨(m ++ "_note", note_msg), hfl, rfl⟩

/-- Witness for C5: one model that succeeded after adjustment (per-ticker rows
plus its note's sentinel row) and one failed model (sentinel row only). -/
theorem allocationRows_sentinel_per_failure_witness :
    (([("max_sharpe", "Failed: degenerate"), ("efficient_risk_note", "adjusted")].map
        (Prod.fst (α := String) (β := String))).Nodup) ∧
    ((∀ m msg,
        (m, msg) ∈ [("max_sharpe", "Failed: degenerate"), ("efficient_risk_note", "adjusted")] →
      (allocationRows [("efficient_risk", [("AAPL", 1)])]
          [("max_sharpe", "Failed: degenerate"), ("efficient_risk_note", "adjusted")]
          (fun _ => 100) 1000).count
        { riskModel := m, ticker := "N/A", weight := 0, quantity := 0,
          note := some msg } = 1) ∧
    (∀ m w note_msg, (m, w) ∈ [("efficient_risk", [("AAPL", (1 : ℚ))])] →
        (m ++ "_note", note_msg) ∈
          [("max_sharpe", "Failed: degenerate"), ("efficient_risk_note", "adjusted")] →
      ((∀ t wt, (t, wt) ∈ w →
          ({ riskModel := m, ticker := t, weight := wt,
             quantity := (dictGet (calculate_quantities w (fun _ => 100) 1000) t).getD 0,
             note := none } : AllocationRow) ∈
            allocationRows [("efficient_risk", [("AAPL", 1)])]
              [("max_sharpe", "Failed: degenerate"), ("efficient_risk_note", "adjusted")]
              (fun _ => 100) 1000) ∧
        ({ riskModel := m ++ "_note", ticker := "N/A", weight := 0, quantity := 0,
           note := some note_msg } : AllocationRow) ∈
          allocationRows [("efficient_risk", [("AAPL", 1)])]
            [("max_sharpe", "Failed: degenerate"), ("efficient_risk_note", "adjusted")]
            (fun _ => 100) 1000))) :=
  ⟨by decide,
    allocationRows_sentinel_per_failure [("efficient_risk", [("AAPL", 1)])]
      [("max_sharpe", "Failed: degenerate"), ("efficient_risk_note", "adjusted")]
      (fun _ => 100) 1000 (by decide)⟩

/-- A concrete resolved task, as the agent builds it before persisting. -/
def exampleTask : TaskStructure where
  task := "Allocate the basket"
  asset_symbols := ["AAPL", "GOOG"]
  total_investment := 100000
  start_date := "2023-01-01"
  end_date := none
  risk_free_rate := 1/20
  target_return := 3/20
  target_volatility := 3/20

/-- C10: the task listing's date filter reads the `"timestamp"` key
(defaulting to `""` when absent), but the execution loop persists the creation
date under the key `"date"`.  Concretely: a task persisted on `2024-01-15`
carries `date = "2024-01-15"`, has no `"timestamp"` key, its creation date
lies inside the filter range `["2024-01-01", "2024-12-31"]`, and yet the
filtered listing is empty. -/
theorem task_listing_date_filter_misses_agent_saved_tasks :
    jGetStr (task_to_save exampleTask "2024-01-15") "date" "" = "2024-01-15" ∧
    dictGet (task_to_save exampleTask "2024-01-15") "timestamp" = none ∧
    pyStrLe "2024-01-01" "2024-01-15" = true ∧
    pyStrLe "2024-01-15" "2024-12-31" = true ∧
    get_task_data [("t1", task_to_save exampleTask "2024-01-15")]
      (some "2024-01-01") (some "2024-12-31") none = [] := by
  refine ⟨?_, ?_, ?_, ?_, ?_⟩ <;> decide

end AllocatorBot
